import Mathlib

/-!
Shallow embedding of the ingestion / reconciliation engine of
`src/modules/database.py` (class `ManageDatabase`), together with the schema
of `src/create_main_database.py` and the call pattern of
`src/flow_booking_data.py`.

The PostgreSQL backend is external to the repository; its reaction to a
statement (success, or a constraint/connectivity error with a message) is
modelled by oracle functions collected in `Backend` / `BackendB`.  Everything
else — control flow, exception propagation, which statements are issued in
which order, what is written where — is translated directly from the Python
source.  `print` calls are accumulated in a `prints` field, and the raising
of a Python exception is an `Except.error` result.
-/

namespace AccommodationDB

/-- A cell value as it travels from a Pandas data frame into a bound SQL
parameter.  `vnan` is a float NaN cell, `vnull` is Python `None` / SQL NULL. -/
inductive Value
  | vnull
  | vnan
  | vstr (s : String)
  | vint (n : Int)
  deriving DecidableEq, Repr

/-- `None if pd.isna(x) else x` (database.py line 171): `pd.isna` holds for
NaN and for `None`, both of which bind as SQL NULL. -/
def normalizeValue : Value → Value
  | Value.vnan => Value.vnull
  | Value.vnull => Value.vnull
  | v => v

/-- Oracle for the external store's reaction to the statements issued by
`populate_table` and `log_error`: `insErr t vals` is `some msg` when inserting
the bound values `vals` into table `t` raises a database error with message
`msg`, and `ddlErr t` is `some msg` when the conditional CREATE-TABLE DDL for
table `t` raises. -/
structure Backend where
  insErr : String → List Value → Option String
  ddlErr : String → Option String

/-- The visible state of the store for the generic loading path: the tables
(as association list name ↦ rows) and everything printed to the console. -/
structure TDB where
  tables : List (String × List (List Value))
  prints : List String
  deriving DecidableEq, Repr

/-- Rows currently stored in table `t` (`none` when the table does not exist). -/
def TDB.lookupTable (db : TDB) (t : String) : Option (List (List Value)) :=
  (db.tables.find? (fun p => p.1 == t)).map (fun p => p.2)

/-- Append one row to table `t` (the table is created by `log_error` before any
insert into it, so insertion into a present table just appends). -/
def TDB.appendRow (db : TDB) (t : String) (row : List Value) : TDB :=
  { db with tables := db.tables.map (fun p => if p.1 == t then (p.1, p.2 ++ [row]) else p) }

/-- Register an empty table `t`. -/
def TDB.createTable (db : TDB) (t : String) : TDB :=
  { db with tables := db.tables ++ [(t, [])] }

/-- `execute_query` at an INSERT call site (commit=True): on a backend error
the executor prints `Error during query execution: ...` and re-raises
(database.py lines 79–89). -/
def execInsert (b : Backend) (db : TDB) (t : String) (vals : List Value) :
    TDB × Except String Unit :=
  match b.insErr t vals with
  | some e =>
      ({ db with prints := db.prints ++ ["Error during query execution: " ++ e] },
       Except.error e)
  | none => (db.appendRow t vals, Except.ok ())

/-- `ManageDatabase.log_error` (database.py lines 111–149): derive the
quarantine table `<table_name>_error_log`, issue the conditional DDL creating
it when absent, then insert the failing row's values plus the error message.
Both `execute_query` calls re-raise backend errors, and `log_error` itself has
no handler, so either failure propagates to `log_error`'s caller. -/
def log_error (b : Backend) (db : TDB) (table_name : String)
    (error_message : String) (values : List Value) : TDB × Except String Unit :=
  let error_log_table := table_name ++ "_error_log"
  match b.ddlErr error_log_table with
  | some e =>
      ({ db with prints := db.prints ++ ["Error during query execution: " ++ e] },
       Except.error e)
  | none =>
      let db1 := if db.lookupTable error_log_table = none
                 then db.createTable error_log_table else db
      let error_values := values ++ [Value.vstr error_message]
      execInsert b db1 error_log_table error_values

/-- `ManageDatabase.populate_table` (database.py lines 151–187): for each row,
normalize NaN cells to NULL, attempt a single parameterized insert with
commit=True; on a per-row error call `log_error` with that row's values and
the error and continue with the next row.  The `log_error` call sits inside
the `except` block with no further handler, so a quarantine failure
propagates out of `populate_table` and the remaining rows are not processed. -/
def populate_table (b : Backend) (db : TDB) (table_name : String)
    (rows : List (List Value)) : TDB × Except String Unit :=
  match rows with
  | [] => (db, Except.ok ())
  | row :: rest =>
      let values_tuple := row.map normalizeValue
      match execInsert b db table_name values_tuple with
      | (db1, Except.ok _) => populate_table b db1 table_name rest
      | (db1, Except.error e) =>
          match log_error b db1 table_name e values_tuple with
          | (db2, Except.ok _) => populate_table b db2 table_name rest
          | (db2, Except.error e2) => (db2, Except.error e2)

/-! ### Query Executor control-flow model (database.py lines 65–89)

`execute_query` acquires one connection for the call, executes the statement,
commits when asked, and on a database error prints, rolls back when `commit`
was requested, and re-raises; the `finally` block closes the connection on
every exit path.  The trace of connection-level events is made explicit. -/

/-- Connection-level events of one `execute_query` call. -/
inductive QEv
  | acquireConn
  | execStmt
  | printEv (msg : String)
  | commitTx
  | rollbackTx
  | closeConn
  deriving DecidableEq, Repr

/-- `ManageDatabase.execute_query` as a trace of connection events plus its
outcome; `failure` is the backend oracle for this one statement. -/
def execute_query (failure : Option String) (commit : Bool) :
    List QEv × Except String Unit :=
  let tryBlock : List QEv × Except String Unit :=
    match failure with
    | none =>
        (QEv.execStmt :: (if commit then [QEv.commitTx] else []), Except.ok ())
    | some e =>
        (QEv.execStmt :: QEv.printEv ("Error during query execution: " ++ e) ::
          (if commit then [QEv.rollbackTx] else []), Except.error e)
  (QEv.acquireConn :: tryBlock.1 ++ [QEv.closeConn], tryBlock.2)

/-! ### Schema Manager (database.py lines 91–109)

`create_database` issues two DDL statements (CREATE DATABASE, then CREATE
SCHEMA) each as its own `execute_query(..., commit=True)` call, wrapped in a
try/except that prints the error and returns normally.  `create_table`
issues one DDL statement with commit=True and has no handler, so an executor
error propagates.  The `List Bool` component records the commit flag of each
DDL statement actually issued. -/

/-- `ManageDatabase.create_database`: `dbErr` / `schemaErr` are the backend
oracles for the two statements.  Any error is caught, printed as
`Error while creating database or schema: ...`, and swallowed. -/
def create_database (dbErr schemaErr : Option String) :
    List Bool × List String × Except String Unit :=
  match dbErr with
  | some e =>
      ([true],
       ["Error during query execution: " ++ e,
        "Error while creating database or schema: " ++ e],
       Except.ok ())
  | none =>
      match schemaErr with
      | some e =>
          ([true, true],
           ["Error during query execution: " ++ e,
            "Error while creating database or schema: " ++ e],
           Except.ok ())
      | none => ([true, true], [], Except.ok ())

/-- `ManageDatabase.create_table`: one DDL with commit=True, no handler. -/
def create_table (tblErr : Option String) :
    List Bool × List String × Except String Unit :=
  match tblErr with
  | some e =>
      ([true], ["Error during query execution: " ++ e], Except.error e)
  | none => ([true], [], Except.ok ())

/-! ### Reconciliation layer (database.py lines 218–364)

State of the `accommodations` schema as far as `add_booking_data` touches it:
the `listings` table (surrogate-keyed canonical entities), the `booking`
table (dependent observations), the two lazily created quarantine tables, the
`listing_id` SERIAL sequence, console output, and an explicit trace of the
orchestrator-level operations performed (used to state ordering properties).
The `listings` table of `create_main_database.py` line 56 declares
`listing_id SERIAL PRIMARY KEY` and no uniqueness constraint on
`(name, platform)`. -/

/-- One incoming record of the booking ingestion data frame
(`flow_booking_data.py` columns plus the added `platform` column). -/
structure Record where
  neighbourhood_id : Value
  room_type_id : Value
  name : String
  features : List Value
  platform : String
  room_name : Value
  timestamp : Value
  price : Value
  deriving DecidableEq, Repr

/-- A row of the `listings` table. -/
structure ListingRow where
  listing_id : Nat
  neighbourhood_id : Value
  room_type_id : Value
  name : String
  features : List Value
  platform : String
  deriving DecidableEq, Repr

/-- A row of the `booking` table. -/
structure BookingRow where
  listing_id : Nat
  room_name : Value
  timestamp : Value
  price : Value
  deriving DecidableEq, Repr

/-- Orchestrator-level operations, in the order `add_booking_data` performs
them: the MAX(listing_id) read, the sequence reset via setval, a `listings`
insert attempt through `populate_table`, an identifier re-resolution through
`get_listing_id`, and a `booking` insert attempt. -/
inductive Ev
  | getMaxEv
  | setSeqEv (next : Nat)
  | insertListingEv (name : String)
  | resolveEv (name : String)
  | insertBookingEv (lid : Nat)
  deriving DecidableEq, Repr

/-- Schema state visible to the reconciliation path. -/
structure Store where
  listings : List ListingRow
  booking : List BookingRow
  listings_errlog : List (List Value)
  booking_errlog : List (List Value)
  seqNext : Nat
  prints : List String
  events : List Ev
  deriving DecidableEq, Repr

/-- Backend oracle for the reconciliation path: reaction of the store to a
`listings` insert of a given record, to a `booking` insert of a given row, to
the conditional quarantine-table DDL, and to a quarantine insert. -/
structure BackendB where
  listingsInsErr : Record → Option String
  bookingInsErr : BookingRow → Option String
  errlogDdlErr : String → Option String
  errlogInsErr : String → List Value → Option String

/-- The bound values of a `listings` insert for record `r`, in the column
order of database.py lines 252–256 (`listing_id` is absent: it is
generator-assigned). -/
def listingValues (r : Record) : List Value :=
  [r.neighbourhood_id, r.room_type_id, Value.vstr r.name] ++ r.features ++
    [Value.vstr r.platform]

/-- `ManageDatabase.load_existing_values` (lines 203–216): `SELECT name,
platform FROM listings` folded into a dict comprehension keyed by name, so a
later row with the same name overwrites an earlier one.  Loaded once at the
start of `add_booking_data` and never refreshed during the run. -/
def load_existing_values (s : Store) (n : String) : Option String :=
  (s.listings.reverse.find? (fun l => l.name == n)).map (fun l => l.platform)

/-- `ManageDatabase.get_max_listing_id` (lines 339–353): `SELECT
MAX(listing_id)`, with `0` substituted when the table is empty (SQL NULL). -/
def get_max_listing_id (s : Store) : Nat :=
  s.listings.foldr (fun l acc => max l.listing_id acc) 0

/-- `ManageDatabase.set_listing_id_sequence` (lines 355–364):
`setval(seq, max_id + 1, false)` — with third argument `false` the next
`nextval` call returns exactly `max_id + 1`. -/
def set_listing_id_sequence (s : Store) (max_id : Nat) : Store :=
  { s with seqNext := max_id + 1, events := s.events ++ [Ev.setSeqEv (max_id + 1)] }

/-- `ManageDatabase.get_listing_id` (lines 272–288): `SELECT listing_id FROM
listings WHERE name = %s AND platform = 'booking'` with `fetchone`; returns
the first matching row's id, or `none` when no row matches (a miss is a
normal `None` return, not an exception). -/
def get_listing_id (s : Store) (name : String) : Option Nat :=
  (s.listings.find? (fun l => l.name == name && l.platform == "booking")).map
    (fun l => l.listing_id)

/-- The single-row `populate_table('listings', subset_listings)` call of
database.py line 257: one parameterized insert of the NaN-normalized record
values with commit=True; `listing_id` is generator-assigned (`nextval` is
consumed by the insert attempt).  On a backend error the executor prints and
re-raises, `populate_table` catches and calls `log_error('listings', ...)`
(conditional quarantine DDL, then quarantine insert, each of which re-raises
its own failure past `populate_table`). -/
def populate_listings_row (b : BackendB) (s : Store) (r : Record) :
    Store × Except String Unit :=
  let s0 := { s with events := s.events ++ [Ev.insertListingEv r.name] }
  match b.listingsInsErr r with
  | none =>
      ({ s0 with
          listings := s0.listings ++
            [{ listing_id := s0.seqNext,
               neighbourhood_id := normalizeValue r.neighbourhood_id,
               room_type_id := normalizeValue r.room_type_id,
               name := r.name,
               features := r.features.map normalizeValue,
               platform := r.platform }],
          seqNext := s0.seqNext + 1 }, Except.ok ())
  | some e =>
      let s1 := { s0 with
                   seqNext := s0.seqNext + 1,
                   prints := s0.prints ++ ["Error during query execution: " ++ e] }
      match b.errlogDdlErr "listings_error_log" with
      | some e2 =>
          ({ s1 with prints := s1.prints ++ ["Error during query execution: " ++ e2] },
           Except.error e2)
      | none =>
          let quarantined := (listingValues r).map normalizeValue ++ [Value.vstr e]
          match b.errlogInsErr "listings_error_log" quarantined with
          | some e3 =>
              ({ s1 with prints := s1.prints ++ ["Error during query execution: " ++ e3] },
               Except.error e3)
          | none =>
              ({ s1 with listings_errlog := s1.listings_errlog ++ [quarantined] },
               Except.ok ())

/-- `ManageDatabase.insert_booking_data` (lines 290–316): one insert into
`booking` on the shared run connection; on a backend error prints
`Error during booking data insertion: ...`, rolls back, and calls
`log_error('booking', ...)` whose own failure propagates. -/
def insert_booking_data (b : BackendB) (s : Store) (row : BookingRow) :
    Store × Except String Unit :=
  let s0 := { s with events := s.events ++ [Ev.insertBookingEv row.listing_id] }
  match b.bookingInsErr row with
  | none => ({ s0 with booking := s0.booking ++ [row] }, Except.ok ())
  | some e =>
      let s1 := { s0 with
                   prints := s0.prints ++ ["Error during booking data insertion: " ++ e] }
      match b.errlogDdlErr "booking_error_log" with
      | some e2 =>
          ({ s1 with prints := s1.prints ++ ["Error during query execution: " ++ e2] },
           Except.error e2)
      | none =>
          let quarantined := [Value.vint (Int.ofNat row.listing_id), row.room_name,
                              row.timestamp, row.price, Value.vstr e]
          match b.errlogInsErr "booking_error_log" quarantined with
          | some e3 =>
              ({ s1 with prints := s1.prints ++ ["Error during query execution: " ++ e3] },
               Except.error e3)
          | none =>
              ({ s1 with booking_errlog := s1.booking_errlog ++ [quarantined] },
               Except.ok ())

/-- The loop body of `add_booking_data` (lines 239–263) for one record:
consult the in-memory index `dbn`; when it maps the name to `'booking'`,
re-resolve via `get_listing_id` and append the observation (skipping the
record when the id is falsy — `if not listing_id: continue`); otherwise
insert a new `listings` row through `populate_table`, re-resolve via
`get_listing_id`, and append the observation unless resolution is falsy. -/
def process_record (b : BackendB) (dbn : String → Option String) (s : Store)
    (r : Record) : Store × Except String Unit :=
  if dbn r.name = some "booking" then
    let s1 := { s with events := s.events ++ [Ev.resolveEv r.name] }
    match get_listing_id s r.name with
    | none => (s1, Except.ok ())
    | some lid =>
        if lid = 0 then (s1, Except.ok ())
        else insert_booking_data b s1
               { listing_id := lid, room_name := r.room_name,
                 timestamp := r.timestamp, price := r.price }
  else
    match populate_listings_row b s r with
    | (s1, Except.error e) => (s1, Except.error e)
    | (s1, Except.ok _) =>
        let s2 := { s1 with events := s1.events ++ [Ev.resolveEv r.name] }
        match get_listing_id s1 r.name with
        | none => (s2, Except.ok ())
        | some lid =>
            if lid = 0 then (s2, Except.ok ())
            else insert_booking_data b s2
                   { listing_id := lid, room_name := r.room_name,
                     timestamp := r.timestamp, price := r.price }

/-- The record loop of `add_booking_data`: sequential, aborting the run when
a record's processing raises (a quarantine-logging failure). -/
def add_booking_rows (b : BackendB) (dbn : String → Option String) :
    Store → List Record → Store × Except String Unit
  | s, [] => (s, Except.ok ())
  | s, r :: rest =>
      match process_record b dbn s r with
      | (s1, Except.ok _) => add_booking_rows b dbn s1 rest
      | (s1, Except.error e) => (s1, Except.error e)

/-- `ManageDatabase.add_booking_data` (lines 218–269): load the natural-key
index once, read MAX(listing_id), reset the sequence to max+1, then process
the records in order.  The Python method returns `None`; the `Unit` payload
of the `Except` is that return value. -/
def add_booking_data (b : BackendB) (s : Store) (records : List Record) :
    Store × Except String Unit :=
  let dbn := load_existing_values s
  let max_listing_id := get_max_listing_id s
  let s1 := { s with events := s.events ++ [Ev.getMaxEv] }
  let s2 := set_listing_id_sequence s1 max_listing_id
  add_booking_rows b dbn s2 records

/-! ### Concrete inputs used in closed evaluations -/

/-- A backend on which every statement succeeds. -/
def noFailB : BackendB :=
  { listingsInsErr := fun _ => none,
    bookingInsErr := fun _ => none,
    errlogDdlErr := fun _ => none,
    errlogInsErr := fun _ _ => none }

/-- An empty schema state (fresh `listings` / `booking` tables, SERIAL at 1). -/
def emptyStore : Store :=
  { listings := [], booking := [], listings_errlog := [], booking_errlog := [],
    seqNext := 1, prints := [], events := [] }

/-- Scenario record: first sighting of ("Seaside Loft","booking"). -/
def seasideOne : Record :=
  { neighbourhood_id := Value.vint 1, room_type_id := Value.vint 2,
    name := "Seaside Loft", features := [Value.vint 1, Value.vint 0],
    platform := "booking", room_name := Value.vstr "Loft A",
    timestamp := Value.vstr "2024-06-01 10:00", price := Value.vint 120 }

/-- Scenario record: same natural key as `seasideOne`, different timestamp. -/
def seasideTwo : Record :=
  { seasideOne with room_name := Value.vstr "Loft B",
                    timestamp := Value.vstr "2024-06-02 10:00",
                    price := Value.vint 130 }

/-- Scenario record: new natural key ("Downtown Studio","booking"). -/
def downtown : Record :=
  { neighbourhood_id := Value.vint 3, room_type_id := Value.vint 2,
    name := "Downtown Studio", features := [Value.vint 0, Value.vint 1],
    platform := "booking", room_name := Value.vstr "Studio",
    timestamp := Value.vstr "2024-06-01 11:00", price := Value.vint 95 }

/-! ### Statement-side descriptions and further concrete fixtures -/

/-- Recognizer for sequence-reset events, used to state ordering properties. -/
def isSetSeq : Ev → Bool
  | Ev.setSeqEv _ => true
  | _ => false

/-- Whether inserting `row` (after normalization) into `t` fails on backend `b`. -/
def rowFails (b : Backend) (t : String) (row : List Value) : Bool :=
  (b.insErr t (row.map normalizeValue)).isSome

/-- The error message the backend reports for `row` (empty when it succeeds). -/
def rowMsg (b : Backend) (t : String) (row : List Value) : String :=
  (b.insErr t (row.map normalizeValue)).getD ""

/-- The rows of a batch that persist: the non-failing ones, as bound
(normalized) values, in batch order. -/
def persistedOf (b : Backend) (t : String) (rows : List (List Value)) :
    List (List Value) :=
  (rows.filter (fun row => !rowFails b t row)).map (fun row => row.map normalizeValue)

/-- The quarantine rows a batch generates: for each failing row its normalized
values followed by the error message. -/
def quarantineOf (b : Backend) (t : String) (rows : List (List Value)) :
    List (List Value) :=
  (rows.filter (fun row => rowFails b t row)).map
    (fun row => row.map normalizeValue ++ [Value.vstr (rowMsg b t row)])

/-- Final content of a lazily created quarantine table, given its prior state
and the newly quarantined rows: still absent when it did not exist and no
failure occurred, otherwise its previous rows followed by the new ones. -/
def expectedErrlog (prev : Option (List (List Value)))
    (newq : List (List Value)) : Option (List (List Value)) :=
  match prev, newq with
  | none, [] => none
  | none, q :: qs => some (q :: qs)
  | some q0, qs => some (q0 ++ qs)

/-- A generic-layer store holding one empty target table. -/
def tdb0 : TDB := { tables := [("test_table", [])], prints := [] }

/-- A sample batch row that the backend `qFailB` rejects. -/
def rowA : List Value := [Value.vstr "a", Value.vint 3]

/-- A sample batch row that every backend below accepts. -/
def rowB : List Value := [Value.vstr "b", Value.vint 4]

/-- A backend that rejects `rowA` in `test_table` and additionally cannot
create the quarantine table `test_table_error_log`. -/
def qFailB : Backend :=
  { insErr := fun t vals =>
      if t = "test_table" then (if vals = rowA then some "boom" else none)
      else none,
    ddlErr := fun t =>
      if t = "test_table_error_log" then some "ddlboom" else none }

/-- A backend rejecting only inserts of `rowA` into `test_table`; quarantine
logging always succeeds. -/
def qOkB : Backend :=
  { insErr := fun t vals =>
      if t = "test_table" then (if vals = rowA then some "boom" else none)
      else none,
    ddlErr := fun _ => none }

/-- A reconciliation backend whose `listings` insert is rejected for every
record (quarantined), with quarantine logging itself succeeding. -/
def listFailB : BackendB :=
  { listingsInsErr := fun _ => some "fk violation",
    bookingInsErr := fun _ => none,
    errlogDdlErr := fun _ => none,
    errlogInsErr := fun _ _ => none }

/-- The natural-key index of an empty store. -/
def dbnNone : String → Option String := fun _ => none

/-- A canonical entity stored under platform `airbnb`. -/
def oldFlat : ListingRow :=
  { listing_id := 5, neighbourhood_id := Value.vint 1,
    room_type_id := Value.vint 1, name := "Old Flat",
    features := [], platform := "airbnb" }

/-- A store already holding one canonical entity of another platform. -/
def aStore : Store :=
  { listings := [oldFlat], booking := [], listings_errlog := [],
    booking_errlog := [], seqNext := 9, prints := [], events := [] }

/-- The stored canonical entity ("Seaside Loft","booking") with id 7. -/
def seasideRow : ListingRow :=
  { listing_id := 7, neighbourhood_id := Value.vint 1,
    room_type_id := Value.vint 2, name := "Seaside Loft",
    features := [], platform := "booking" }

/-- A store already holding the canonical entity ("Seaside Loft","booking"). -/
def bStore : Store :=
  { listings := [seasideRow], booking := [], listings_errlog := [],
    booking_errlog := [], seqNext := 8, prints := [], events := [] }

/-- The canonical entity ("Cross Plaza","booking") with id 1. -/
def crossBookingRow : ListingRow :=
  { listing_id := 1, neighbourhood_id := Value.vint 1,
    room_type_id := Value.vint 1, name := "Cross Plaza",
    features := [], platform := "booking" }

/-- The same display name stored again under platform `airbnb`, with id 2. -/
def crossAirbnbRow : ListingRow :=
  { listing_id := 2, neighbourhood_id := Value.vint 1,
    room_type_id := Value.vint 1, name := "Cross Plaza",
    features := [], platform := "airbnb" }

/-- A store whose listings hold "Cross Plaza" under both platforms, the
`airbnb` row loaded after the `booking` row (so the name-keyed index of
`load_existing_values` maps the name to `airbnb`). -/
def mixStore : Store :=
  { listings := [crossBookingRow, crossAirbnbRow], booking := [],
    listings_errlog := [], booking_errlog := [], seqNext := 3,
    prints := [], events := [] }

/-- An incoming booking record whose natural key ("Cross Plaza","booking")
is already present in `mixStore`. -/
def crossRecord : Record :=
  { neighbourhood_id := Value.vint 1, room_type_id := Value.vint 1,
    name := "Cross Plaza", features := [], platform := "booking",
    room_name := Value.vstr "Room 1",
    timestamp := Value.vstr "2024-06-03 09:00", price := Value.vint 80 }

/-- The store `populate_listings_row listFailB emptyStore seasideOne` leaves
behind: the listings insert was quarantined (no listing row added), the
sequence value was consumed, the error printed. -/
def quarantinedStore : Store :=
  { listings := [], booking := [],
    listings_errlog := [[Value.vint 1, Value.vint 2, Value.vstr "Seaside Loft",
                         Value.vint 1, Value.vint 0, Value.vstr "booking",
                         Value.vstr "fk violation"]],
    booking_errlog := [], seqNext := 2,
    prints := ["Error during query execution: fk violation"],
    events := [Ev.insertListingEv "Seaside Loft"] }

/-! ## Theorems -/

/-- Every stored identifier is bounded by the fold computing MAX(listing_id). -/
theorem mem_listings_le_fold_max (ls : List ListingRow) (l : ListingRow)
    (h : l ∈ ls) :
    l.listing_id ≤ ls.foldr (fun x acc => max x.listing_id acc) 0 := by
  induction ls with
  | nil => cases h
  | cons a t ih =>
      rcases List.mem_cons.mp h with h1 | h2
      · subst h1; exact le_max_left _ _
      · exact le_trans (ih h2) (le_max_right _ _)

/-- Claim C1: the scenario of ingesting three records over an empty store, two
of them sharing the new natural key ("Seaside Loft","booking") and one with
the new key ("Downtown Studio","booking"), is claimed to yield exactly 2
canonical entities.  Evaluating the code at that input: the natural-key index
is loaded once and never refreshed during the run, and the `listings` table
has no uniqueness constraint on (name, platform), so the run yields 3
canonical entities — two of them sharing the key ("Seaside Loft","booking") —
together with 3 dependent observations and 0 quarantined rows. -/
theorem C1_scenario_code_result :
    ((add_booking_data noFailB emptyStore [seasideOne, seasideTwo, downtown]).1.listings.map
        (fun l => (l.name, l.platform))
      = [("Seaside Loft", "booking"), ("Seaside Loft", "booking"),
         ("Downtown Studio", "booking")]) ∧
    (add_booking_data noFailB emptyStore [seasideOne, seasideTwo, downtown]).1.listings.length
      = 3 ∧
    (add_booking_data noFailB emptyStore [seasideOne, seasideTwo, downtown]).1.booking.length
      = 3 ∧
    (add_booking_data noFailB emptyStore [seasideOne, seasideTwo, downtown]).1.listings_errlog
      = [] ∧
    (add_booking_data noFailB emptyStore [seasideOne, seasideTwo, downtown]).1.booking_errlog
      = [] :=
  ⟨rfl, rfl, rfl, rfl, rfl⟩

/-- Claim C2: get_max_listing_id followed by set_listing_id_sequence resets
the generator so that its next value is max+1 (0+1 on an empty table), the
immediately following generator-assigned insert receives exactly max+1, and
that identifier is strictly greater than every identifier currently stored. -/
theorem C2_resync_next_id (s : Store) :
    (set_listing_id_sequence s (get_max_listing_id s)).seqNext
        = get_max_listing_id s + 1 ∧
    (∀ b r, b.listingsInsErr r = none →
        (populate_listings_row b
            (set_listing_id_sequence s (get_max_listing_id s)) r).1.listings
          = s.listings ++
            [{ listing_id := get_max_listing_id s + 1,
               neighbourhood_id := normalizeValue r.neighbourhood_id,
               room_type_id := normalizeValue r.room_type_id,
               name := r.name,
               features := r.features.map normalizeValue,
               platform := r.platform }]) ∧
    (∀ l, l ∈ s.listings →
        l.listing_id < (set_listing_id_sequence s (get_max_listing_id s)).seqNext) := by
  refine ⟨rfl, ?_, ?_⟩
  · intro b r h
    simp [populate_listings_row, set_listing_id_sequence, h]
  · intro l hl
    have hle := mem_listings_le_fold_max s.listings l hl
    have : (set_listing_id_sequence s (get_max_listing_id s)).seqNext
        = get_max_listing_id s + 1 := rfl
    rw [this]
    exact Nat.lt_succ_of_le hle

/-- Witness for C2 at a store holding one listing with identifier 5. -/
theorem C2_resync_next_id_witness :
    (populate_listings_row noFailB
        (set_listing_id_sequence aStore (get_max_listing_id aStore)) seasideOne).1.listings
      = aStore.listings ++
        [{ listing_id := get_max_listing_id aStore + 1,
           neighbourhood_id := normalizeValue seasideOne.neighbourhood_id,
           room_type_id := normalizeValue seasideOne.room_type_id,
           name := seasideOne.name,
           features := seasideOne.features.map normalizeValue,
           platform := seasideOne.platform }] ∧
    oldFlat.listing_id < (set_listing_id_sequence aStore (get_max_listing_id aStore)).seqNext :=
  ⟨(C2_resync_next_id aStore).2.1 noFailB seasideOne rfl,
   (C2_resync_next_id aStore).2.2 oldFlat (by decide)⟩

/-- Claim C7: every execute_query call closes its connection as the final
connection event on every exit path; a backend error is always re-raised
(never swallowed), and when commit was requested an explicit rollback is
issued before the error propagates (before the closing of the connection). -/
theorem C7_executor_contract (failure : Option String) (commit : Bool) :
    (execute_query failure commit).1.getLast? = some QEv.closeConn ∧
    (failure = none → (execute_query failure commit).2 = Except.ok ()) ∧
    (∀ e, failure = some e →
        (execute_query failure commit).2 = Except.error e ∧
        (commit = true →
          QEv.rollbackTx ∈ (execute_query failure commit).1.dropLast)) := by
  cases failure <;> cases commit <;>
    simp [execute_query, List.getLast?, List.dropLast]

/-- Witness for C7: a failing statement with commit requested. -/
theorem C7_executor_contract_witness :
    (execute_query (some "db down") true).2 = Except.error "db down" ∧
    QEv.rollbackTx ∈ (execute_query (some "db down") true).1.dropLast :=
  (C7_executor_contract (some "db down") true).2.2 "db down" rfl |>.imp id
    (fun h => h rfl)

/-- Claim C8 counterexample: two runs returning the identical value while
their inserted-entity counts differ — the value `add_booking_data` returns
(the Python method returns None) carries no count of inserted rows, hence no
IngestSummary.  (The method also takes no source-platform parameter: its only
parameter is the record batch.) -/
theorem C8_no_summary_cex :
    (add_booking_data noFailB emptyStore [downtown]).2
      = (add_booking_data noFailB emptyStore []).2 ∧
    (add_booking_data noFailB emptyStore [downtown]).1.listings.length
      ≠ (add_booking_data noFailB emptyStore []).1.listings.length :=
  ⟨rfl, by decide⟩

/-- Claim C8 amended: the orchestrator's operation is
`add_booking_data(records)` — records only, no source-platform parameter —
and it returns None: any two successful runs return the identical value, so
the returned value determines none of the run's counts. -/
theorem C8_ingest_interface (b : BackendB) (s : Store) (records : List Record)
    (b' : BackendB) (s' : Store) (records' : List Record) (u u' : Unit)
    (h : (add_booking_data b s records).2 = Except.ok u)
    (h' : (add_booking_data b' s' records').2 = Except.ok u') :
    (add_booking_data b s records).2 = (add_booking_data b' s' records').2 := by
  rw [h, h']

/-- Witness for C8: the one-record and the zero-record runs above. -/
theorem C8_ingest_interface_witness :
    (add_booking_data noFailB emptyStore [downtown]).2
      = (add_booking_data noFailB emptyStore []).2 :=
  C8_ingest_interface noFailB emptyStore [downtown] noFailB emptyStore [] () ()
    rfl rfl

/-- Claim C9 counterexample: `create_database` issues two DDL statements (not
a single one), and when the first fails the error is caught and printed, the
call returning normally — the failure does not propagate out of the Schema
Manager call. -/
theorem C9_schema_manager_cex :
    (create_database (some "permission denied") none).2.2 = Except.ok () ∧
    (create_database none none).1 = [true, true] :=
  ⟨rfl, rfl⟩

/-- Claim C9 amended: `create_database` issues up to two DDL statements
(CREATE DATABASE, then CREATE SCHEMA), each with commit=true, and catches any
failure, printing `Error while creating database or schema: ...` and
returning normally — the error does not propagate and is not retried;
`create_table` issues a single DDL statement with commit=true and propagates
any failure to the caller. -/
theorem C9_schema_manager_behavior :
    (∀ dbErr schemaErr : Option String,
        (create_database dbErr schemaErr).2.2 = Except.ok () ∧
        (∀ f, f ∈ (create_database dbErr schemaErr).1 → f = true) ∧
        (∀ e, dbErr = some e →
            ("Error while creating database or schema: " ++ e)
              ∈ (create_database dbErr schemaErr).2.1)) ∧
    (∀ tblErr : Option String,
        (create_table tblErr).1 = [true] ∧
        (∀ e, tblErr = some e → (create_table tblErr).2.2 = Except.error e) ∧
        (tblErr = none → (create_table tblErr).2.2 = Except.ok ())) := by
  constructor
  · intro dbErr schemaErr
    cases dbErr <;> cases schemaErr <;>
      simp [create_database]
  · intro tblErr
    cases tblErr <;> simp [create_table]

/-- Witness for C9 amended: a failing CREATE DATABASE and a failing
CREATE TABLE. -/
theorem C9_schema_manager_behavior_witness :
    ("Error while creating database or schema: no perm")
      ∈ (create_database (some "no perm") none).2.1 ∧
    (create_table (some "exists already")).2.2 = Except.error "exists already" :=
  ⟨(C9_schema_manager_behavior.1 (some "no perm") none).2.2 "no perm" rfl,
   (C9_schema_manager_behavior.2 (some "exists already")).2.1 "exists already" rfl⟩

/-- The Quarantine Logger only appends to the console output. -/
theorem log_error_prints_extend (b : Backend) (db : TDB) (t m : String)
    (v : List Value) :
    ∃ tl, (log_error b db t m v).1.prints = db.prints ++ tl := by
  cases hd : b.ddlErr (t ++ "_error_log") with
  | some e =>
      refine ⟨["Error during query execution: " ++ e], ?_⟩
      simp only [log_error, hd]
  | none =>
      cases hi : b.insErr (t ++ "_error_log") (v ++ [Value.vstr m]) with
      | some e =>
          refine ⟨["Error during query execution: " ++ e], ?_⟩
          simp only [log_error, execInsert, hd, hi]
          split <;> simp [TDB.createTable]
      | none =>
          refine ⟨[], ?_⟩
          simp only [log_error, execInsert, hd, hi]
          split <;> simp [TDB.appendRow, TDB.createTable]

/-- Claim C4 counterexample: on a backend where the first row's insert fails
and the quarantine table cannot be created, `populate_table` aborts with the
quarantine-logging error and the second row — which the backend would have
accepted — is never persisted: ingestion of subsequent rows does not proceed. -/
theorem C4_quarantine_failure_cex :
    (populate_table qFailB tdb0 "test_table" [rowA, rowB]).2
      = Except.error "ddlboom" ∧
    (populate_table qFailB tdb0 "test_table" [rowA, rowB]).1.lookupTable "test_table"
      = some [] ∧
    qFailB.insErr "test_table" (rowB.map normalizeValue) = none :=
  ⟨rfl, rfl, rfl⟩

/-- Claim C4 amended: a failure inside quarantine logging is reported (the
executor prints the insert error before the logger runs, and the logging
error itself is printed), but it propagates out of `log_error` and aborts the
caller's batch: `populate_table` re-raises it and the remaining rows of the
batch are not processed at all (the result does not depend on them). -/
theorem C4_quarantine_failure_aborts (b : Backend) (db : TDB) (t : String)
    (row : List Value) (rest : List (List Value)) (e e2 : String) (db2 : TDB)
    (hins : b.insErr t (row.map normalizeValue) = some e)
    (hlog : log_error b
        { db with prints := db.prints ++ ["Error during query execution: " ++ e] }
        t e (row.map normalizeValue) = (db2, Except.error e2)) :
    populate_table b db t (row :: rest) = (db2, Except.error e2) ∧
    ∃ tl, db2.prints
        = db.prints ++ ["Error during query execution: " ++ e] ++ tl := by
  constructor
  · simp only [populate_table, execInsert, hins, hlog]
  · have h := log_error_prints_extend b
      { db with prints := db.prints ++ ["Error during query execution: " ++ e] }
      t e (row.map normalizeValue)
    rw [hlog] at h
    simpa using h

/-- Witness for C4 amended at the concrete failing batch. -/
theorem C4_quarantine_failure_aborts_witness :
    populate_table qFailB tdb0 "test_table" [rowA, rowB]
      = ({ tables := [("test_table", [])],
           prints := ["Error during query execution: boom",
                      "Error during query execution: ddlboom"] },
         Except.error "ddlboom") :=
  (C4_quarantine_failure_aborts qFailB tdb0 "test_table" rowA [rowB]
    "boom" "ddlboom"
    { tables := [("test_table", [])],
      prints := ["Error during query execution: boom",
                 "Error during query execution: ddlboom"] }
    rfl rfl).1

/-- No table name equals its own quarantine-table name. -/
theorem self_ne_error_log (t : String) : t ≠ t ++ "_error_log" := by
  intro h
  have hlen := congrArg String.length h
  rw [String.length_append] at hlen
  have h10 : ("_error_log" : String).length = 10 := rfl
  omega

/-- Appending a row to table `t` leaves every other table unchanged. -/
theorem lookupTable_appendRow_ne (db : TDB) (t t' : String) (row : List Value)
    (h : t' ≠ t) :
    (db.appendRow t row).lookupTable t' = db.lookupTable t' := by
  obtain ⟨ts, ps⟩ := db
  simp only [TDB.appendRow, TDB.lookupTable]
  induction ts with
  | nil => rfl
  | cons a ts ih =>
      simp only [List.map_cons]
      by_cases ha : a.1 = t
      · have hbt' : (a.1 == t') = false := by
          simp only [beq_eq_false_iff_ne]
          exact fun hh => h (hh ▸ ha)
        rw [if_pos (by simpa using ha)]
        rw [List.find?_cons_of_neg _ (by simp [hbt'])]
        rw [List.find?_cons_of_neg _ (by simp [hbt'])]
        exact ih
      · rw [if_neg (by simpa using ha)]
        by_cases hb : a.1 = t'
        · rw [List.find?_cons_of_pos _ (by simpa using hb),
              List.find?_cons_of_pos _ (by simpa using hb)]
        · rw [List.find?_cons_of_neg _ (by simpa using hb),
              List.find?_cons_of_neg _ (by simpa using hb)]
          exact ih

/-- Appending a row to a present table appends to its row list. -/
theorem lookupTable_appendRow_self (db : TDB) (t : String) (row : List Value)
    (rs : List (List Value)) (h : db.lookupTable t = some rs) :
    (db.appendRow t row).lookupTable t = some (rs ++ [row]) := by
  obtain ⟨ts, ps⟩ := db
  simp only [TDB.appendRow, TDB.lookupTable] at *
  induction ts with
  | nil => simp [List.find?] at h
  | cons a ts ih =>
      simp only [List.map_cons]
      by_cases ha : a.1 = t
      · rw [if_pos (by simpa using ha)]
        rw [List.find?_cons_of_pos _ (by simpa using ha)]
        rw [List.find?_cons_of_pos _ (by simpa using ha)] at h
        have h2 : a.2 = rs := by simpa using h
        simp [h2]
      · rw [if_neg (by simpa using ha)]
        rw [List.find?_cons_of_neg _ (by simpa using ha)]
        rw [List.find?_cons_of_neg _ (by simpa using ha)] at h
        exact ih h

/-- Creating a table leaves every other table unchanged. -/
theorem lookupTable_createTable_ne (db : TDB) (t t' : String)
    (h : t' ≠ t) :
    (db.createTable t).lookupTable t' = db.lookupTable t' := by
  obtain ⟨ts, ps⟩ := db
  simp only [TDB.createTable, TDB.lookupTable]
  rw [List.find?_append]
  have hfind : List.find? (fun p => p.1 == t') [(t, ([] : List (List Value)))] = none := by
    rw [List.find?_cons_of_neg]
    · rfl
    · simp only [beq_iff_eq]
      exact fun hh => h hh.symm
  rw [hfind]
  cases List.find? (fun p => p.1 == t') ts <;> rfl

/-- Creating an absent table registers it with no rows. -/
theorem lookupTable_createTable_self (db : TDB) (t : String)
    (h : db.lookupTable t = none) :
    (db.createTable t).lookupTable t = some [] := by
  obtain ⟨ts, ps⟩ := db
  simp only [TDB.createTable, TDB.lookupTable] at *
  rw [List.find?_append]
  have hn : List.find? (fun p => p.1 == t) ts = none := by
    cases hf : List.find? (fun p => p.1 == t) ts with
    | none => rfl
    | some p => rw [hf] at h; simp at h
  rw [hn]
  simp [List.find?]

/-- Console output does not affect table lookup. -/
theorem lookupTable_prints (ts : List (String × List (List Value)))
    (ps ps' : List String) (t : String) :
    TDB.lookupTable { tables := ts, prints := ps } t
      = TDB.lookupTable { tables := ts, prints := ps' } t := rfl

/-- Filtering a list by a predicate and by its negation partitions it. -/
theorem length_filter_not_partition {α : Type} (p : α → Bool) (l : List α) :
    (l.filter (fun a => !p a)).length + (l.filter p).length = l.length := by
  induction l with
  | nil => rfl
  | cons a l ih =>
      by_cases h : p a <;> simp [List.filter, h] <;> omega

/-- `persistedOf` on a succeeding head row. -/
theorem persistedOf_cons_ok (b : Backend) (t : String) (row : List Value)
    (rows : List (List Value))
    (hi : b.insErr t (row.map normalizeValue) = none) :
    persistedOf b t (row :: rows)
      = row.map normalizeValue :: persistedOf b t rows := by
  simp [persistedOf, List.filter, rowFails, hi]

/-- `persistedOf` on a failing head row. -/
theorem persistedOf_cons_fail (b : Backend) (t : String) (row : List Value)
    (rows : List (List Value)) (e : String)
    (hi : b.insErr t (row.map normalizeValue) = some e) :
    persistedOf b t (row :: rows) = persistedOf b t rows := by
  simp [persistedOf, List.filter, rowFails, hi]

/-- `quarantineOf` on a succeeding head row. -/
theorem quarantineOf_cons_ok (b : Backend) (t : String) (row : List Value)
    (rows : List (List Value))
    (hi : b.insErr t (row.map normalizeValue) = none) :
    quarantineOf b t (row :: rows) = quarantineOf b t rows := by
  simp [quarantineOf, List.filter, rowFails, hi]

/-- `quarantineOf` on a failing head row. -/
theorem quarantineOf_cons_fail (b : Backend) (t : String) (row : List Value)
    (rows : List (List Value)) (e : String)
    (hi : b.insErr t (row.map normalizeValue) = some e) :
    quarantineOf b t (row :: rows)
      = (row.map normalizeValue ++ [Value.vstr e]) :: quarantineOf b t rows := by
  simp [quarantineOf, List.filter, rowFails, rowMsg, hi]

/-- When the quarantine DDL and quarantine insert for `t` succeed, `log_error`
ensures the quarantine table exists and appends the row plus the message. -/
theorem log_error_ok (b : Backend) (db : TDB) (t m : String) (v : List Value)
    (hq1 : b.ddlErr (t ++ "_error_log") = none)
    (hq2 : ∀ vals, b.insErr (t ++ "_error_log") vals = none) :
    log_error b db t m v
      = ((if db.lookupTable (t ++ "_error_log") = none
          then db.createTable (t ++ "_error_log") else db).appendRow
            (t ++ "_error_log") (v ++ [Value.vstr m]), Except.ok ()) := by
  simp only [log_error, execInsert, hq1, hq2]

/-- One step of `populate_table` on a failing head row whose quarantine
logging succeeds. -/
theorem populate_table_cons_fail (b : Backend) (db : TDB) (t : String)
    (row : List Value) (rows : List (List Value)) (e : String)
    (hi : b.insErr t (row.map normalizeValue) = some e)
    (hq1 : b.ddlErr (t ++ "_error_log") = none)
    (hq2 : ∀ vals, b.insErr (t ++ "_error_log") vals = none) :
    populate_table b db t (row :: rows)
      = populate_table b
          ((if TDB.lookupTable
                { db with prints := db.prints ++ ["Error during query execution: " ++ e] }
                (t ++ "_error_log") = none
            then TDB.createTable
                { db with prints := db.prints ++ ["Error during query execution: " ++ e] }
                (t ++ "_error_log")
            else { db with
                    prints := db.prints ++ ["Error during query execution: " ++ e] }).appendRow
            (t ++ "_error_log") (row.map normalizeValue ++ [Value.vstr e]))
          t rows := by
  simp only [populate_table, execInsert, hi]
  rw [log_error_ok b _ t e (row.map normalizeValue) hq1 hq2]

/-- Main induction for the Bulk Loader: when quarantine logging for table `t`
never fails, `populate_table` runs the whole batch, persisting the non-failing
rows and quarantining the failing ones. -/
theorem populate_table_run (b : Backend) (t : String)
    (hq1 : b.ddlErr (t ++ "_error_log") = none)
    (hq2 : ∀ vals, b.insErr (t ++ "_error_log") vals = none) :
    ∀ (rows : List (List Value)) (db : TDB) (curr : List (List Value)),
      db.lookupTable t = some curr →
      (populate_table b db t rows).2 = Except.ok () ∧
      (populate_table b db t rows).1.lookupTable t
        = some (curr ++ persistedOf b t rows) ∧
      (populate_table b db t rows).1.lookupTable (t ++ "_error_log")
        = expectedErrlog (db.lookupTable (t ++ "_error_log"))
            (quarantineOf b t rows) := by
  intro rows
  induction rows with
  | nil =>
      intro db curr hcur
      refine ⟨rfl, ?_, ?_⟩
      · simp [populate_table, persistedOf, hcur]
      · simp only [populate_table, quarantineOf, List.filter_nil, List.map_nil]
        cases db.lookupTable (t ++ "_error_log") <;> simp [expectedErrlog]
  | cons row rows ih =>
      intro db curr hcur
      cases hi : b.insErr t (row.map normalizeValue) with
      | none =>
          have hstep : populate_table b db t (row :: rows)
              = populate_table b (db.appendRow t (row.map normalizeValue)) t rows := by
            simp only [populate_table, execInsert, hi]
          have hcur2 : (db.appendRow t (row.map normalizeValue)).lookupTable t
              = some (curr ++ [row.map normalizeValue]) :=
            lookupTable_appendRow_self db t _ curr hcur
          obtain ⟨ho, hp, he⟩ := ih (db.appendRow t (row.map normalizeValue)) _ hcur2
          rw [hstep]
          refine ⟨ho, ?_, ?_⟩
          · rw [hp, persistedOf_cons_ok b t row rows hi]
            simp
          · rw [he, lookupTable_appendRow_ne db t (t ++ "_error_log") _
                  (Ne.symm (self_ne_error_log t)),
                quarantineOf_cons_ok b t row rows hi]
      | some e =>
          rw [populate_table_cons_fail b db t row rows e hi hq1 hq2]
          rw [persistedOf_cons_fail b t row rows e hi,
            quarantineOf_cons_fail b t row rows e hi]
          cases hprev : db.lookupTable (t ++ "_error_log") with
          | none =>
              have hprev1 : TDB.lookupTable
                  { db with prints := db.prints ++ ["Error during query execution: " ++ e] }
                  (t ++ "_error_log") = none := hprev
              rw [if_pos hprev1]
              have hcur2 : ((TDB.createTable
                    { db with prints := db.prints ++ ["Error during query execution: " ++ e] }
                    (t ++ "_error_log")).appendRow (t ++ "_error_log")
                    (row.map normalizeValue ++ [Value.vstr e])).lookupTable t
                  = some curr := by
                rw [lookupTable_appendRow_ne _ _ _ _ (self_ne_error_log t),
                  lookupTable_createTable_ne _ _ _ (self_ne_error_log t)]
                exact hcur
              obtain ⟨ho, hp, he⟩ := ih _ _ hcur2
              refine ⟨ho, hp, ?_⟩
              rw [he]
              have helt : ((TDB.createTable
                    { db with prints := db.prints ++ ["Error during query execution: " ++ e] }
                    (t ++ "_error_log")).appendRow (t ++ "_error_log")
                    (row.map normalizeValue ++ [Value.vstr e])).lookupTable
                    (t ++ "_error_log")
                  = some ([] ++ [row.map normalizeValue ++ [Value.vstr e]]) := by
                apply lookupTable_appendRow_self
                exact lookupTable_createTable_self _ _ hprev1
              rw [helt]
              simp [expectedErrlog]
          | some q0 =>
              have hprev1 : TDB.lookupTable
                  { db with prints := db.prints ++ ["Error during query execution: " ++ e] }
                  (t ++ "_error_log") = some q0 := hprev
              rw [if_neg (by simp [hprev1])]
              have hcur2 : (TDB.appendRow
                    { db with prints := db.prints ++ ["Error during query execution: " ++ e] }
                    (t ++ "_error_log")
                    (row.map normalizeValue ++ [Value.vstr e])).lookupTable t
                  = some curr := by
                rw [lookupTable_appendRow_ne _ _ _ _ (self_ne_error_log t)]
                exact hcur
              obtain ⟨ho, hp, he⟩ := ih _ _ hcur2
              refine ⟨ho, hp, ?_⟩
              rw [he]
              have helt : (TDB.appendRow
                    { db with prints := db.prints ++ ["Error during query execution: " ++ e] }
                    (t ++ "_error_log")
                    (row.map normalizeValue ++ [Value.vstr e])).lookupTable
                    (t ++ "_error_log")
                  = some (q0 ++ [row.map normalizeValue ++ [Value.vstr e]]) := by
                apply lookupTable_appendRow_self
                exact hprev1
              rw [helt]
              simp [expectedErrlog]

/-- Claim C5: for a batch of N rows, each row is attempted as its own
parameterized insert with NaN normalized to NULL before binding; a per-row
failure is caught, the row is quarantined with its (normalized) field values
and the backend's error message, and processing continues, ending the batch
with K quarantined and N−K persisted rows and no error for the caller; every
quarantined row carries its original field values and a non-empty failure
reason.  (The hypotheses `hq1`/`hq2` say quarantine logging itself succeeds —
its own failure mode is Claim C4's subject.) -/
theorem C5_bulk_loader_partial_failure (b : Backend) (t : String) (db : TDB)
    (rows : List (List Value)) (curr : List (List Value))
    (hq1 : b.ddlErr (t ++ "_error_log") = none)
    (hq2 : ∀ vals, b.insErr (t ++ "_error_log") vals = none)
    (hcur : db.lookupTable t = some curr)
    (hmsg : ∀ (row : List Value) (e : String),
        b.insErr t (row.map normalizeValue) = some e → e ≠ "") :
    (populate_table b db t rows).2 = Except.ok () ∧
    (populate_table b db t rows).1.lookupTable t
      = some (curr ++ persistedOf b t rows) ∧
    (populate_table b db t rows).1.lookupTable (t ++ "_error_log")
      = expectedErrlog (db.lookupTable (t ++ "_error_log"))
          (quarantineOf b t rows) ∧
    (persistedOf b t rows).length + (quarantineOf b t rows).length
      = rows.length ∧
    (∀ q, q ∈ quarantineOf b t rows → ∃ row e, row ∈ rows ∧
        b.insErr t (row.map normalizeValue) = some e ∧
        q = row.map normalizeValue ++ [Value.vstr e] ∧ e ≠ "") := by
  obtain ⟨ho, hp, he⟩ := populate_table_run b t hq1 hq2 rows db curr hcur
  refine ⟨ho, hp, he, ?_, ?_⟩
  · simp only [persistedOf, quarantineOf, List.length_map]
    exact length_filter_not_partition (fun row => rowFails b t row) rows
  · intro q hq
    simp only [quarantineOf, List.mem_map] at hq
    obtain ⟨row, hrow, hqe⟩ := hq
    rw [List.mem_filter] at hrow
    obtain ⟨hrowmem, hfail⟩ := hrow
    unfold rowFails at hfail
    cases hie : b.insErr t (row.map normalizeValue) with
    | none => rw [hie] at hfail; simp at hfail
    | some e =>
        refine ⟨row, e, hrowmem, hie, ?_, hmsg row e hie⟩
        rw [← hqe]
        simp [rowMsg, hie]

/-- The error messages `qOkB` emits for the target table are non-empty. -/
theorem qOkB_msg_nonempty :
    ∀ (row : List Value) (e : String),
      qOkB.insErr "test_table" (row.map normalizeValue) = some e →
      e ≠ "" := by
  intro row e h
  have h2 : (if row.map normalizeValue = rowA
      then some "boom" else (none : Option String)) = some e := by
    simpa [qOkB] using h
  split at h2
  · injection h2 with he
    subst he
    decide
  · exact Option.noConfusion h2

/-- Witness for C5: a two-row batch of which the first row fails and is
quarantined while the second persists, the batch finishing without error. -/
theorem C5_bulk_loader_partial_failure_witness :
    (populate_table qOkB tdb0 "test_table" [rowA, rowB]).2 = Except.ok () ∧
    (populate_table qOkB tdb0 "test_table" [rowA, rowB]).1.lookupTable "test_table"
      = some ([] ++ persistedOf qOkB "test_table" [rowA, rowB]) :=
  ⟨(C5_bulk_loader_partial_failure qOkB "test_table" tdb0 [rowA, rowB] []
      rfl (fun _ => rfl) rfl qOkB_msg_nonempty).1,
   (C5_bulk_loader_partial_failure qOkB "test_table" tdb0 [rowA, rowB] []
      rfl (fun _ => rfl) rfl qOkB_msg_nonempty).2.1⟩

/-- A booking insert attempt emits exactly one booking-insert event. -/
theorem insert_booking_data_events (b : BackendB) (s : Store) (row : BookingRow) :
    (insert_booking_data b s row).1.events
      = s.events ++ [Ev.insertBookingEv row.listing_id] := by
  unfold insert_booking_data
  split
  · rfl
  · split
    · rfl
    · dsimp only
      split <;> rfl

/-- A booking insert attempt never modifies the listings table. -/
theorem insert_booking_data_listings (b : BackendB) (s : Store) (row : BookingRow) :
    (insert_booking_data b s row).1.listings = s.listings := by
  unfold insert_booking_data
  split
  · rfl
  · split
    · rfl
    · dsimp only
      split <;> rfl

/-- A booking insert attempt either appends exactly its row or leaves the
booking table unchanged (failure path). -/
theorem insert_booking_data_booking (b : BackendB) (s : Store) (row : BookingRow) :
    (insert_booking_data b s row).1.booking = s.booking ∨
    (insert_booking_data b s row).1.booking = s.booking ++ [row] := by
  unfold insert_booking_data
  split
  · right; rfl
  · split
    · left; rfl
    · dsimp only
      split
      · left; rfl
      · left; rfl

/-- A booking insert the backend accepts appends its row and succeeds. -/
theorem insert_booking_data_ok (b : BackendB) (s : Store) (row : BookingRow)
    (h : b.bookingInsErr row = none) :
    insert_booking_data b s row
      = ({ s with events := s.events ++ [Ev.insertBookingEv row.listing_id],
                  booking := s.booking ++ [row] }, Except.ok ()) := by
  simp [insert_booking_data, h]

/-- A listings insert attempt emits exactly one listing-insert event. -/
theorem populate_listings_row_events (b : BackendB) (s : Store) (r : Record) :
    (populate_listings_row b s r).1.events
      = s.events ++ [Ev.insertListingEv r.name] := by
  unfold populate_listings_row
  split
  · rfl
  · split
    · rfl
    · dsimp only
      split <;> rfl

/-- A listings insert attempt never touches the booking table. -/
theorem populate_listings_row_booking (b : BackendB) (s : Store) (r : Record) :
    (populate_listings_row b s r).1.booking = s.booking := by
  unfold populate_listings_row
  split
  · rfl
  · split
    · rfl
    · dsimp only
      split <;> rfl

/-- A listings insert attempt only ever appends to the listings table. -/
theorem populate_listings_row_listings (b : BackendB) (s : Store) (r : Record) :
    ∃ δ, (populate_listings_row b s r).1.listings = s.listings ++ δ := by
  unfold populate_listings_row
  split
  · exact ⟨_, rfl⟩
  · split
    · exact ⟨[], by simp⟩
    · dsimp only
      split
      · exact ⟨[], by simp⟩
      · exact ⟨[], by simp⟩

/-- `get_listing_id` depends only on the listings component of the store. -/
theorem get_listing_id_congr (s s' : Store) (n : String)
    (h : s.listings = s'.listings) :
    get_listing_id s n = get_listing_id s' n := by
  simp [get_listing_id, h]

/-- A resolved identifier always belongs to a stored listing with the given
name and the literal platform `'booking'`. -/
theorem get_listing_id_some (s : Store) (n : String) (lid : Nat)
    (h : get_listing_id s n = some lid) :
    ∃ l, l ∈ s.listings ∧ l.listing_id = lid ∧ l.name = n ∧
      l.platform = "booking" := by
  unfold get_listing_id at h
  cases hf : s.listings.find? (fun l => l.name == n && l.platform == "booking") with
  | none => rw [hf] at h; simp at h
  | some l =>
      rw [hf] at h
      simp only [Option.map_some'] at h
      have hmem := List.mem_of_find?_eq_some hf
      have hpl := List.find?_some hf
      simp only [Bool.and_eq_true, beq_iff_eq] at hpl
      exact ⟨l, hmem, by injection h, hpl.1, hpl.2⟩

/-- A natural-key miss resolves to `None`, not an error. -/
theorem get_listing_id_none (s : Store) (n : String)
    (h : ∀ l, l ∈ s.listings → ¬(l.name = n ∧ l.platform = "booking")) :
    get_listing_id s n = none := by
  unfold get_listing_id
  rw [List.find?_eq_none.mpr]
  · rfl
  · intro l hl
    simp only [Bool.and_eq_true, beq_iff_eq]
    exact fun hc => h l hl hc

/-- A present natural key resolves to some identifier. -/
theorem get_listing_id_isSome (s : Store) (n : String)
    (h : ∃ l, l ∈ s.listings ∧ l.name = n ∧ l.platform = "booking") :
    ∃ lid, get_listing_id s n = some lid := by
  obtain ⟨l, hl, hn, hp⟩ := h
  have : (s.listings.find? (fun l => l.name == n && l.platform == "booking")).isSome := by
    rw [List.find?_isSome]
    exact ⟨l, hl, by simp [hn, hp]⟩
  cases hf : s.listings.find? (fun l => l.name == n && l.platform == "booking") with
  | none => rw [hf] at this; simp at this
  | some l0 => exact ⟨l0.listing_id, by simp [get_listing_id, hf]⟩

/-- Per-record processing only appends to the listings table. -/
theorem process_record_listings (b : BackendB) (dbn : String → Option String)
    (s : Store) (r : Record) :
    ∃ δ, (process_record b dbn s r).1.listings = s.listings ++ δ := by
  by_cases hb : dbn r.name = some "booking"
  · cases hg : get_listing_id s r.name with
    | none => exact ⟨[], by simp [process_record, hb, hg]⟩
    | some lid =>
        by_cases hl : lid = 0
        · exact ⟨[], by simp [process_record, hb, hg, hl]⟩
        · exact ⟨[], by simp [process_record, hb, hg, hl,
            insert_booking_data_listings]⟩
  · cases hp : populate_listings_row b s r with
    | mk s1 res =>
        obtain ⟨δ, hδx⟩ := populate_listings_row_listings b s r
        have hδ : s1.listings = s.listings ++ δ := by rw [hp] at hδx; exact hδx
        cases res with
        | error e => exact ⟨δ, by simp [process_record, hb, hp]; exact hδ⟩
        | ok u =>
            cases hg : get_listing_id s1 r.name with
            | none => exact ⟨δ, by simp [process_record, hb, hp, hg]; exact hδ⟩
            | some lid =>
                by_cases hl : lid = 0
                · exact ⟨δ, by simp [process_record, hb, hp, hg, hl]; exact hδ⟩
                · exact ⟨δ, by simp [process_record, hb, hp, hg, hl,
                    insert_booking_data_listings]; exact hδ⟩

/-- On the new-entity path the orchestrator emits the listing-insert event and
then immediately the re-resolution event, with no sequence reset in between
or after. -/
theorem process_record_new_entity_resolve (b : BackendB)
    (dbn : String → Option String) (s : Store) (r : Record) (s1 : Store)
    (hb : ¬ dbn r.name = some "booking")
    (hpop : populate_listings_row b s r = (s1, Except.ok ())) :
    (∃ more, (process_record b dbn s r).1.events
        = s.events ++ [Ev.insertListingEv r.name, Ev.resolveEv r.name] ++ more ∧
      more.filter isSetSeq = []) ∧
    (get_listing_id s1 r.name = none →
      process_record b dbn s r
        = ({ s1 with events := s1.events ++ [Ev.resolveEv r.name] }, Except.ok ())
      ∧ (process_record b dbn s r).1.booking = s.booking) := by
  have he1 : s1.events = s.events ++ [Ev.insertListingEv r.name] := by
    have := populate_listings_row_events b s r
    rw [hpop] at this; exact this
  have hbook1 : s1.booking = s.booking := by
    have := populate_listings_row_booking b s r
    rw [hpop] at this; exact this
  constructor
  · cases hg : get_listing_id s1 r.name with
    | none =>
        refine ⟨[], ?_, rfl⟩
        have : (process_record b dbn s r).1.events
            = s1.events ++ [Ev.resolveEv r.name] := by
          simp [process_record, hb, hpop, hg]
        rw [this, he1]
        simp
    | some lid =>
        by_cases hl : lid = 0
        · refine ⟨[], ?_, rfl⟩
          have : (process_record b dbn s r).1.events
              = s1.events ++ [Ev.resolveEv r.name] := by
            simp [process_record, hb, hpop, hg, hl]
          rw [this, he1]
          simp
        · refine ⟨[Ev.insertBookingEv lid], ?_, rfl⟩
          have : (process_record b dbn s r).1.events
              = (s1.events ++ [Ev.resolveEv r.name]) ++ [Ev.insertBookingEv lid] := by
            simp [process_record, hb, hpop, hg, hl, insert_booking_data_events]
          rw [this, he1]
          simp
  · intro hg
    have hpr : process_record b dbn s r
        = ({ s1 with events := s1.events ++ [Ev.resolveEv r.name] }, Except.ok ()) := by
      simp [process_record, hb, hpop, hg]
    refine ⟨hpr, ?_⟩
    rw [hpr]
    exact hbook1

/-- Per-record processing never emits a sequence-reset event. -/
theorem process_record_events_no_setseq (b : BackendB)
    (dbn : String → Option String) (s : Store) (r : Record) :
    ∃ δ, (process_record b dbn s r).1.events = s.events ++ δ ∧
      δ.filter isSetSeq = [] := by
  by_cases hb : dbn r.name = some "booking"
  · cases hg : get_listing_id s r.name with
    | none => exact ⟨[Ev.resolveEv r.name], by simp [process_record, hb, hg], rfl⟩
    | some lid =>
        by_cases hl : lid = 0
        · exact ⟨[Ev.resolveEv r.name], by simp [process_record, hb, hg, hl], rfl⟩
        · refine ⟨[Ev.resolveEv r.name, Ev.insertBookingEv lid], ?_, rfl⟩
          have : (process_record b dbn s r).1.events
              = (s.events ++ [Ev.resolveEv r.name]) ++ [Ev.insertBookingEv lid] := by
            simp [process_record, hb, hg, hl, insert_booking_data_events]
          rw [this]
          simp
  · cases hp : populate_listings_row b s r with
    | mk s1 res =>
        have he1 : s1.events = s.events ++ [Ev.insertListingEv r.name] := by
          have := populate_listings_row_events b s r
          rw [hp] at this; exact this
        cases res with
        | error e =>
            refine ⟨[Ev.insertListingEv r.name], ?_, rfl⟩
            have : (process_record b dbn s r).1.events = s1.events := by
              simp [process_record, hb, hp]
            rw [this, he1]
        | ok u =>
            obtain ⟨more, hm, hf⟩ :=
              (process_record_new_entity_resolve b dbn s r s1 hb hp).1
            refine ⟨[Ev.insertListingEv r.name, Ev.resolveEv r.name] ++ more, ?_, ?_⟩
            · rw [hm]; simp
            · simp [List.filter_append, hf, isSetSeq]

/-- The record loop only appends to the listings table. -/
theorem add_booking_rows_listings (b : BackendB) (dbn : String → Option String) :
    ∀ (rs : List Record) (s : Store),
      ∃ δ, (add_booking_rows b dbn s rs).1.listings = s.listings ++ δ := by
  intro rs
  induction rs with
  | nil => intro s; exact ⟨[], by simp [add_booking_rows]⟩
  | cons r rest ih =>
      intro s
      cases hp : process_record b dbn s r with
      | mk s1 res =>
          obtain ⟨δ1, h1x⟩ := process_record_listings b dbn s r
          have h1 : s1.listings = s.listings ++ δ1 := by rw [hp] at h1x; exact h1x
          cases res with
          | error e =>
              refine ⟨δ1, ?_⟩
              have : add_booking_rows b dbn s (r :: rest) = (s1, Except.error e) := by
                simp [add_booking_rows, hp]
              rw [this]
              exact h1
          | ok u =>
              obtain ⟨δ2, h2⟩ := ih s1
              refine ⟨δ1 ++ δ2, ?_⟩
              have : add_booking_rows b dbn s (r :: rest)
                  = add_booking_rows b dbn s1 rest := by
                simp [add_booking_rows, hp]
              rw [this, h2, h1]
              simp

/-- The record loop never emits a sequence-reset event. -/
theorem add_booking_rows_events (b : BackendB) (dbn : String → Option String) :
    ∀ (rs : List Record) (s : Store),
      ∃ δ, (add_booking_rows b dbn s rs).1.events = s.events ++ δ ∧
        δ.filter isSetSeq = [] := by
  intro rs
  induction rs with
  | nil => intro s; exact ⟨[], by simp [add_booking_rows], rfl⟩
  | cons r rest ih =>
      intro s
      cases hp : process_record b dbn s r with
      | mk s1 res =>
          obtain ⟨δ1, h1x, hf1⟩ := process_record_events_no_setseq b dbn s r
          have h1 : s1.events = s.events ++ δ1 := by rw [hp] at h1x; exact h1x
          cases res with
          | error e =>
              refine ⟨δ1, ?_, hf1⟩
              have : add_booking_rows b dbn s (r :: rest) = (s1, Except.error e) := by
                simp [add_booking_rows, hp]
              rw [this]
              exact h1
          | ok u =>
              obtain ⟨δ2, h2, hf2⟩ := ih s1
              refine ⟨δ1 ++ δ2, ?_, ?_⟩
              · have : add_booking_rows b dbn s (r :: rest)
                    = add_booking_rows b dbn s1 rest := by
                  simp [add_booking_rows, hp]
                rw [this, h2, h1]
                simp
              · simp [List.filter_append, hf1, hf2]

/-- Any booking row visible after one record's processing was either already
present or references a listing stored with platform `'booking'`. -/
theorem process_record_booking_src (b : BackendB) (dbn : String → Option String)
    (s : Store) (r : Record) (bk : BookingRow)
    (h : bk ∈ (process_record b dbn s r).1.booking) :
    bk ∈ s.booking ∨
    ∃ l, l ∈ (process_record b dbn s r).1.listings ∧
      l.listing_id = bk.listing_id ∧ l.platform = "booking" := by
  by_cases hb : dbn r.name = some "booking"
  · cases hg : get_listing_id s r.name with
    | none =>
        left
        have heq : (process_record b dbn s r).1.booking = s.booking := by
          simp [process_record, hb, hg]
        rwa [heq] at h
    | some lid =>
        by_cases hl : lid = 0
        · left
          have heq : (process_record b dbn s r).1.booking = s.booking := by
            simp [process_record, hb, hg, hl]
          rwa [heq] at h
        · obtain ⟨l0, hl0, hid0, hn0, hp0⟩ := get_listing_id_some s r.name lid hg
          have hpr : process_record b dbn s r
              = insert_booking_data b
                  { s with events := s.events ++ [Ev.resolveEv r.name] }
                  { listing_id := lid, room_name := r.room_name,
                    timestamp := r.timestamp, price := r.price } := by
            simp [process_record, hb, hg, hl]
          rw [hpr] at h ⊢
          rcases insert_booking_data_booking b
              { s with events := s.events ++ [Ev.resolveEv r.name] }
              { listing_id := lid, room_name := r.room_name,
                timestamp := r.timestamp, price := r.price } with hbk | hbk
          · rw [hbk] at h
            left; exact h
          · rw [hbk] at h
            rcases List.mem_append.mp h with h1 | h2
            · left; exact h1
            · right
              refine ⟨l0, ?_, ?_, hp0⟩
              · rw [insert_booking_data_listings]
                exact hl0
              · have hbke : bk
                    = { listing_id := lid, room_name := r.room_name,
                        timestamp := r.timestamp, price := r.price } :=
                  List.mem_singleton.mp h2
                rw [hbke]
                exact hid0
  · cases hp : populate_listings_row b s r with
    | mk s1 res =>
        have hbook1 : s1.booking = s.booking := by
          have := populate_listings_row_booking b s r
          rw [hp] at this; exact this
        cases res with
        | error e =>
            left
            have heq : (process_record b dbn s r).1.booking = s1.booking := by
              simp [process_record, hb, hp]
            rw [heq, hbook1] at h
            exact h
        | ok u =>
            cases hg : get_listing_id s1 r.name with
            | none =>
                left
                have heq : (process_record b dbn s r).1.booking = s1.booking := by
                  simp [process_record, hb, hp, hg]
                rw [heq, hbook1] at h
                exact h
            | some lid =>
                by_cases hl : lid = 0
                · left
                  have heq : (process_record b dbn s r).1.booking = s1.booking := by
                    simp [process_record, hb, hp, hg, hl]
                  rw [heq, hbook1] at h
                  exact h
                · obtain ⟨l0, hl0, hid0, hn0, hp0⟩ :=
                    get_listing_id_some s1 r.name lid hg
                  have hpr : process_record b dbn s r
                      = insert_booking_data b
                          { s1 with events := s1.events ++ [Ev.resolveEv r.name] }
                          { listing_id := lid, room_name := r.room_name,
                            timestamp := r.timestamp, price := r.price } := by
                    simp [process_record, hb, hp, hg, hl]
                  rw [hpr] at h ⊢
                  rcases insert_booking_data_booking b
                      { s1 with events := s1.events ++ [Ev.resolveEv r.name] }
                      { listing_id := lid, room_name := r.room_name,
                        timestamp := r.timestamp, price := r.price } with hbk | hbk
                  · rw [hbk] at h
                    left
                    have h2 : bk ∈ s1.booking := h
                    rw [hbook1] at h2
                    exact h2
                  · rw [hbk] at h
                    rcases List.mem_append.mp h with h1 | h2
                    · left
                      have h3 : bk ∈ s1.booking := h1
                      rw [hbook1] at h3
                      exact h3
                    · right
                      refine ⟨l0, ?_, ?_, hp0⟩
                      · rw [insert_booking_data_listings]
                        exact hl0
                      · have hbke : bk
                            = { listing_id := lid, room_name := r.room_name,
                                timestamp := r.timestamp, price := r.price } :=
                          List.mem_singleton.mp h2
                        rw [hbke]
                        exact hid0

/-- Any booking row visible after the record loop was either already present
or references a listing of the final state stored with platform `'booking'`. -/
theorem add_booking_rows_booking_src (b : BackendB)
    (dbn : String → Option String) :
    ∀ (rs : List Record) (s : Store) (bk : BookingRow),
      bk ∈ (add_booking_rows b dbn s rs).1.booking →
      bk ∈ s.booking ∨
      ∃ l, l ∈ (add_booking_rows b dbn s rs).1.listings ∧
        l.listing_id = bk.listing_id ∧ l.platform = "booking" := by
  intro rs
  induction rs with
  | nil =>
      intro s bk h
      left
      simpa [add_booking_rows] using h
  | cons r rest ih =>
      intro s bk h
      cases hp : process_record b dbn s r with
      | mk s1 res =>
          cases res with
          | error e =>
              have heq : add_booking_rows b dbn s (r :: rest)
                  = (s1, Except.error e) := by
                simp [add_booking_rows, hp]
              rw [heq] at h ⊢
              have h2 : bk ∈ (process_record b dbn s r).1.booking := by
                rw [hp]; exact h
              rcases process_record_booking_src b dbn s r bk h2 with h3 | ⟨l, hl, hi1, hi2⟩
              · left; exact h3
              · right
                refine ⟨l, ?_, hi1, hi2⟩
                rw [hp] at hl
                exact hl
          | ok u =>
              have heq : add_booking_rows b dbn s (r :: rest)
                  = add_booking_rows b dbn s1 rest := by
                simp [add_booking_rows, hp]
              rw [heq] at h ⊢
              rcases ih s1 bk h with h3 | ⟨l, hl, hi1, hi2⟩
              · have h2 : bk ∈ (process_record b dbn s r).1.booking := by
                  rw [hp]; exact h3
                rcases process_record_booking_src b dbn s r bk h2 with h4 | ⟨l, hl, hi1, hi2⟩
                · left; exact h4
                · right
                  obtain ⟨δ2, hδ2⟩ := add_booking_rows_listings b dbn rest s1
                  refine ⟨l, ?_, hi1, hi2⟩
                  rw [hδ2]
                  apply List.mem_append_left
                  rw [hp] at hl
                  exact hl
              · right; exact ⟨l, hl, hi1, hi2⟩

/-- When the natural-key index maps a name to `'booking'`, some stored
listing bears that name with platform `'booking'`. -/
theorem load_existing_values_some_booking (s : Store) (n : String)
    (h : load_existing_values s n = some "booking") :
    ∃ l, l ∈ s.listings ∧ l.name = n ∧ l.platform = "booking" := by
  unfold load_existing_values at h
  cases hf : s.listings.reverse.find? (fun l => l.name == n) with
  | none => rw [hf] at h; simp at h
  | some l0 =>
      rw [hf] at h
      have hmem : l0 ∈ s.listings := by
        have := List.mem_of_find?_eq_some hf
        simpa [List.mem_reverse] using this
      have hname : l0.name = n := by simpa using List.find?_some hf
      refine ⟨l0, hmem, hname, ?_⟩
      simpa using h

/-- Claim C3 counterexample: in a one-record run on the NEW_ENTITY path, the
only sequence-reset event occurs at the start of the run, before the
canonical-entity insert; no Sequence Synchronizer invocation happens between
the per-record insert and the re-resolution (events after position 2 contain
no reset), refuting the claimed per-record order insert → sequence-sync →
re-resolve. -/
theorem C3_per_record_sync_cex :
    (add_booking_data noFailB emptyStore [downtown]).1.events
      = [Ev.getMaxEv, Ev.setSeqEv 1, Ev.insertListingEv "Downtown Studio",
         Ev.resolveEv "Downtown Studio", Ev.insertBookingEv 1] ∧
    ((add_booking_data noFailB emptyStore [downtown]).1.events.drop 2).filter
        isSetSeq = [] :=
  ⟨rfl, rfl⟩

/-- Claim C3 amended: the Sequence Synchronizer is invoked exactly once per
run, at the start (after the MAX read), never per record; for every record on
the NEW_ENTITY path the orchestrator inserts one canonical-entity row via the
bulk loader and then immediately re-resolves via the Identity Resolver (no
sequence sync in between or after), and if that re-resolution yields no
identifier the record is skipped: processing ends normally for it and no
dependent observation is written. -/
theorem C3_new_entity_order :
    (∀ (b : BackendB) (s : Store) (records : List Record), ∃ tail,
        (add_booking_data b s records).1.events
          = s.events ++ [Ev.getMaxEv, Ev.setSeqEv (get_max_listing_id s + 1)]
              ++ tail ∧
        tail.filter isSetSeq = []) ∧
    (∀ (b : BackendB) (dbn : String → Option String) (s : Store) (r : Record)
        (s1 : Store), ¬ dbn r.name = some "booking" →
        populate_listings_row b s r = (s1, Except.ok ()) →
        (∃ more, (process_record b dbn s r).1.events
            = s.events ++ [Ev.insertListingEv r.name, Ev.resolveEv r.name]
                ++ more ∧
          more.filter isSetSeq = []) ∧
        (get_listing_id s1 r.name = none →
          process_record b dbn s r
            = ({ s1 with events := s1.events ++ [Ev.resolveEv r.name] },
               Except.ok ())
          ∧ (process_record b dbn s r).1.booking = s.booking)) := by
  constructor
  · intro b s records
    obtain ⟨δ, hδ, hf⟩ := add_booking_rows_events b (load_existing_values s)
        records
        (set_listing_id_sequence { s with events := s.events ++ [Ev.getMaxEv] }
          (get_max_listing_id s))
    refine ⟨δ, ?_, hf⟩
    have heq : add_booking_data b s records
        = add_booking_rows b (load_existing_values s)
            (set_listing_id_sequence { s with events := s.events ++ [Ev.getMaxEv] }
              (get_max_listing_id s)) records := rfl
    rw [heq, hδ]
    show ((s.events ++ [Ev.getMaxEv]) ++ [Ev.setSeqEv (get_max_listing_id s + 1)])
        ++ δ = _
    simp
  · intro b dbn s r s1 hb hpop
    exact process_record_new_entity_resolve b dbn s r s1 hb hpop

/-- Witness for C3 amended: a record whose listings insert is quarantined and
whose re-resolution misses is skipped with no dependent observation. -/
theorem C3_new_entity_order_witness :
    process_record listFailB dbnNone emptyStore seasideOne
      = ({ quarantinedStore with
           events := quarantinedStore.events ++ [Ev.resolveEv "Seaside Loft"] },
         Except.ok ()) ∧
    (process_record listFailB dbnNone emptyStore seasideOne).1.booking
      = emptyStore.booking :=
  (C3_new_entity_order.2 listFailB dbnNone emptyStore seasideOne
    quarantinedStore (by simp [dbnNone]) rfl).2 rfl

/-- Claim C6 counterexample: the natural key ("Cross Plaza","booking") is
present in the store (row `crossBookingRow`) and the record carries the run's
platform, yet ingesting it creates one new canonical entity: the name also
exists under `airbnb` in a row loaded later, so the name-keyed index maps the
name to `airbnb` and the record takes the NEW_ENTITY path — refuting "zero
new canonical entities" for a record whose key is present under the run's
platform.  (The observation is still appended under the existing id 1, which
`get_listing_id` resolves first.) -/
theorem C6_stale_platform_cex :
    crossBookingRow ∈ mixStore.listings ∧
    crossBookingRow.name = crossRecord.name ∧
    crossBookingRow.platform = "booking" ∧
    load_existing_values mixStore crossRecord.name = some "airbnb" ∧
    (add_booking_data noFailB mixStore [crossRecord]).1.listings.length
      = mixStore.listings.length + 1 ∧
    (add_booking_data noFailB mixStore [crossRecord]).1.booking
      = [⟨1, crossRecord.room_name, crossRecord.timestamp, crossRecord.price⟩] := by
  refine ⟨by decide, rfl, rfl, rfl, rfl, rfl⟩

/-- Claim C6 amended: the routing check is the name-keyed in-memory index
(one platform per name; for names stored under several platforms the row
loaded last wins), not the full (name, platform) key.  For every record —
at any position of a run, since the loop applies `process_record` to each
record with the run-start index — whose name the index maps to `'booking'`,
whose name resolves to a non-falsy identifier and whose observation insert
the store accepts, processing creates zero new canonical entities and
appends exactly one dependent observation referencing the existing
`'booking'` entity's identifier; a whole one-record run does the same when
the run-start index maps the name to `'booking'`. -/
theorem C6_index_booking_appends :
    (∀ (b : BackendB) (dbn : String → Option String) (s : Store) (r : Record)
        (lid : Nat),
        dbn r.name = some "booking" →
        get_listing_id s r.name = some lid →
        ¬ lid = 0 →
        b.bookingInsErr ⟨lid, r.room_name, r.timestamp, r.price⟩ = none →
        process_record b dbn s r
          = ({ s with
                events := (s.events ++ [Ev.resolveEv r.name])
                  ++ [Ev.insertBookingEv lid],
                booking := s.booking
                  ++ [⟨lid, r.room_name, r.timestamp, r.price⟩] },
             Except.ok ()) ∧
        ∃ l, l ∈ s.listings ∧ l.listing_id = lid ∧ l.name = r.name ∧
          l.platform = "booking") ∧
    (∀ (b : BackendB) (s : Store) (r : Record),
        load_existing_values s r.name = some "booking" →
        (∀ l, l ∈ s.listings → l.listing_id ≠ 0) →
        (∀ row : BookingRow, b.bookingInsErr row = none) →
        (add_booking_data b s [r]).1.listings = s.listings ∧
        (add_booking_data b s [r]).2 = Except.ok () ∧
        ∃ lid, get_listing_id s r.name = some lid ∧
          (add_booking_data b s [r]).1.booking
            = s.booking ++ [⟨lid, r.room_name, r.timestamp, r.price⟩] ∧
          ∃ l, l ∈ s.listings ∧ l.listing_id = lid ∧ l.name = r.name ∧
            l.platform = "booking") := by
  constructor
  · intro b dbn s r lid hdbn hg hl hins
    constructor
    · have hpr : process_record b dbn s r
          = insert_booking_data b
              { s with events := s.events ++ [Ev.resolveEv r.name] }
              ⟨lid, r.room_name, r.timestamp, r.price⟩ := by
        simp [process_record, hdbn, hg, hl]
      rw [hpr, insert_booking_data_ok b _ _ hins]
    · exact get_listing_id_some s r.name lid hg
  · intro b s r hidx h3 h4
    obtain ⟨la, hla, hna, hpa⟩ := load_existing_values_some_booking s r.name hidx
    obtain ⟨lid, hlid⟩ := get_listing_id_isSome s r.name ⟨la, hla, hna, hpa⟩
    obtain ⟨l0, hl0, hid0, hn0, hp0⟩ := get_listing_id_some s r.name lid hlid
    have hlid0 : ¬ lid = 0 := by rw [← hid0]; exact h3 l0 hl0
    set E : Store := set_listing_id_sequence
        { s with events := s.events ++ [Ev.getMaxEv] } (get_max_listing_id s)
        with hEdef
    have hgE : get_listing_id E r.name = some lid := hlid
    have hpr : process_record b (load_existing_values s) E r
        = insert_booking_data b
            { E with events := E.events ++ [Ev.resolveEv r.name] }
            ⟨lid, r.room_name, r.timestamp, r.price⟩ := by
      simp [process_record, hidx, hgE, hlid0]
    have hibd := insert_booking_data_ok b
        { E with events := E.events ++ [Ev.resolveEv r.name] }
        ⟨lid, r.room_name, r.timestamp, r.price⟩ (h4 _)
    have hrun : add_booking_data b s [r]
        = ({ E with
              events := (E.events ++ [Ev.resolveEv r.name])
                ++ [Ev.insertBookingEv lid],
              booking := E.booking ++ [⟨lid, r.room_name, r.timestamp, r.price⟩] },
           Except.ok ()) := by
      show add_booking_rows b (load_existing_values s) E [r] = _
      unfold add_booking_rows
      rw [hpr, hibd]
      rfl
    rw [hrun]
    exact ⟨rfl, rfl, lid, hlid, rfl, l0, hl0, hid0, hn0, hp0⟩

/-- Witness for C6 amended: the one-record run over `bStore` (whose index
maps "Seaside Loft" to `'booking'`) appends an observation and creates no
listing; and the loop body, handed an index that maps "Cross Plaza" to
`'booking'` in `mixStore`, appends under the existing id 1 without touching
the listings table. -/
theorem C6_index_booking_appends_witness :
    (add_booking_data noFailB bStore [seasideTwo]).1.listings
      = bStore.listings ∧
    (add_booking_data noFailB bStore [seasideTwo]).2 = Except.ok () ∧
    process_record noFailB (fun _ => some "booking") mixStore crossRecord
      = ({ mixStore with
            events := (mixStore.events ++ [Ev.resolveEv "Cross Plaza"])
              ++ [Ev.insertBookingEv 1],
            booking := mixStore.booking
              ++ [⟨1, crossRecord.room_name, crossRecord.timestamp,
                   crossRecord.price⟩] },
         Except.ok ()) :=
  ⟨(C6_index_booking_appends.2 noFailB bStore seasideTwo rfl (by decide)
      (fun _ => rfl)).1,
   (C6_index_booking_appends.2 noFailB bStore seasideTwo rfl (by decide)
      (fun _ => rfl)).2.1,
   (C6_index_booking_appends.1 noFailB (fun _ => some "booking") mixStore
      crossRecord 1 rfl rfl (by decide) rfl).1⟩

/-- Claim C10: get_listing_id resolves only against rows whose platform is
the literal `'booking'` (a returned identifier always belongs to such a row;
a miss yields None, not an error); a record whose index entry maps to any
other platform takes the new-entity path; and every booking row an ingestion
run produces references an entity stored with platform `'booking'` — never
any other platform. -/
theorem C10_resolution_fixed_to_booking :
    (∀ (s : Store) (n : String) (lid : Nat), get_listing_id s n = some lid →
        ∃ l, l ∈ s.listings ∧ l.listing_id = lid ∧ l.name = n ∧
          l.platform = "booking") ∧
    (∀ (s : Store) (n : String),
        (∀ l, l ∈ s.listings → ¬(l.name = n ∧ l.platform = "booking")) →
        get_listing_id s n = none) ∧
    (∀ (b : BackendB) (dbn : String → Option String) (s : Store) (r : Record)
        (p : String), dbn r.name = some p → p ≠ "booking" →
        ∃ more, (process_record b dbn s r).1.events
          = s.events ++ [Ev.insertListingEv r.name] ++ more) ∧
    (∀ (b : BackendB) (s : Store) (records : List Record) (bk : BookingRow),
        bk ∈ (add_booking_data b s records).1.booking →
        bk ∈ s.booking ∨
        ∃ l, l ∈ (add_booking_data b s records).1.listings ∧
          l.listing_id = bk.listing_id ∧ l.platform = "booking") := by
  refine ⟨get_listing_id_some, get_listing_id_none, ?_, ?_⟩
  · intro b dbn s r p hp hne
    have hb : ¬ dbn r.name = some "booking" := by
      rw [hp]
      intro hc
      exact hne (by injection hc)
    cases hpp : populate_listings_row b s r with
    | mk s1 res =>
        have he1 : s1.events = s.events ++ [Ev.insertListingEv r.name] := by
          have := populate_listings_row_events b s r
          rw [hpp] at this; exact this
        cases res with
        | error e =>
            refine ⟨[], ?_⟩
            have heq : (process_record b dbn s r).1.events = s1.events := by
              simp [process_record, hb, hpp]
            rw [heq, he1]
            simp
        | ok u =>
            obtain ⟨more, hm, hf⟩ :=
              (process_record_new_entity_resolve b dbn s r s1 hb hpp).1
            refine ⟨[Ev.resolveEv r.name] ++ more, ?_⟩
            rw [hm]
            simp
  · intro b s records bk h
    have h2 : bk ∈ (add_booking_rows b (load_existing_values s)
        (set_listing_id_sequence { s with events := s.events ++ [Ev.getMaxEv] }
          (get_max_listing_id s)) records).1.booking := h
    rcases add_booking_rows_booking_src b (load_existing_values s) records _ bk h2
      with h3 | ⟨l, hl, hi1, hi2⟩
    · left; exact h3
    · right; exact ⟨l, hl, hi1, hi2⟩

/-- Witness for C10: a name stored only under platform `'airbnb'` does not
resolve. -/
theorem C10_resolution_fixed_to_booking_witness :
    get_listing_id aStore "Seaside Loft" = none :=
  C10_resolution_fixed_to_booking.2.1 aStore "Seaside Loft" (by decide)

end AccommodationDB
